import Mathlib

/-!
Verification of the workflow core of the `ai-video-workflow` repository.

The definitions below are a shallow embedding of the Python source:
  * `src/skills/base.py`        — `SkillStatus`, `SkillResult`
  * `src/story_generator.py`    — `GeminiStoryGenerator.parse_story_response`,
                                  `GeminiStoryGenerator.generate_story`
  * `src/video_generator.py`    — `Veo3VideoGenerator.generate_video`,
                                  `generate_video_sequence`, `merge_videos`
  * `src/agents/story_agent.py` — `StoryAgent.run`
  * `src/agents/video_agent.py` — `VideoAgent.run`
  * `src/agents/youtube_agent.py` — `YouTubeAgent.run`
  * `src/workflow.py`           — the LangGraph node functions, conditional
                                  edges and `VideoWorkflowAgent.run` exit logic
  * `src/repository.py`         — `WorkflowExecutionRepository.update`
  * `src/db_models.py`          — `WorkflowExecution`

External collaborators (the Gemini generator, the Veo3 renderer, ffmpeg, the
YouTube uploader, the database session) are modelled as oracle values passed
into each function: an `Except String α` oracle models a call that either
raises (with the exception text) or returns a value; an `Option` oracle
models a call whose failures are swallowed at a lower layer and surface as
`None`.  Python truthiness of optional strings and integers (`if x:`) is
modelled by `truthyS` / `truthyI`: `None`, the empty string and `0` are
falsy.  Timestamps are modelled at whole-second granularity.
-/

/-- Python truthiness of an optional string: `None` and `""` are falsy. -/
def truthyS : Option String → Bool
  | none => false
  | some s => s ≠ ""

/-- Python truthiness of an optional integer: `None` and `0` are falsy. -/
def truthyI : Option Int → Bool
  | none => false
  | some n => n ≠ 0

/-- Python `x or d` for an optional string `x`: the string when truthy,
otherwise the default. -/
def strOr (x : Option String) (d : String) : String :=
  match x with
  | none => d
  | some s => if s = "" then d else s

theorem strOr_ne_empty (x : Option String) (d : String) (hd : d ≠ "") :
    strOr x d ≠ "" := by
  cases x with
  | none => simpa [strOr] using hd
  | some s =>
    by_cases hs : s = "" <;> simp [strOr, hs, hd]

theorem truthyS_strOr (x : Option String) (d : String) (hd : d ≠ "") :
    truthyS (some (strOr x d)) = true := by
  simp [truthyS, strOr_ne_empty x d hd]

theorem truthyS_none : truthyS none = false := rfl

theorem truthyS_some_of_ne (s : String) (h : s ≠ "") :
    truthyS (some s) = true := by
  simp [truthyS, h]

/-! ## Data model (`src/models.py`) -/

/-- `Story` (pydantic model in `src/models.py`). -/
structure Story where
  title : String
  dish : String
  summary : String
  story : String
  cooking_steps : List String
  video_prompts : List String
  tags : List String
  description : String
  episode : Option Int := none
  date : Option String := none
  deriving DecidableEq, Repr

/-- `StoryHistoryEntry` (pydantic model in `src/models.py`). -/
structure StoryHistoryEntry where
  episode : Int
  date : String
  title : String
  dish : String
  summary : String
  story : String
  cooking_steps : List String
  video_prompts : List String
  tags : List String
  description : String
  deriving DecidableEq, Repr

/-- `YouTubeUploadResult` (pydantic model in `src/models.py`). -/
structure YouTubeUploadResult where
  video_id : String
  url : String
  title : String
  deriving DecidableEq, Repr

/-- `VideoGenerationResult` (pydantic model in `src/models.py`). -/
structure VideoGenerationResult where
  video_url : Option String := none
  operation_id : Option String := none
  status : String
  file_path : Option String := none
  mock : Bool := false
  deriving DecidableEq, Repr

/-- `WorkflowState` (pydantic model in `src/models.py`), threaded through the
LangGraph nodes. -/
structure WorkflowState where
  episode_number : Option Int := none
  privacy_status : String := "public"
  story : Option Story := none
  story_history : List StoryHistoryEntry := []
  story_id : Option Int := none
  video_segments : List VideoGenerationResult := []
  final_video_path : Option String := none
  video_generation_id : Option Int := none
  upload_result : Option YouTubeUploadResult := none
  youtube_upload_id : Option Int := none
  error : Option String := none
  current_step : String := "start"
  timestamp : Option String := none
  execution_id : Option Int := none
  deriving DecidableEq, Repr

/-- The configuration switches of `src/config.py` that the workflow core
reads (`settings.skip_video_generation`, `settings.test_video_path`). -/
structure AppSettings where
  skip_video_generation : Bool := false
  test_video_path : String := ""
  deriving DecidableEq, Repr

/-! ## Step Result (`src/skills/base.py`) -/

/-- `SkillStatus` enumeration. -/
inductive SkillStatus where
  | SUCCESS
  | FAILED
  | PENDING
  deriving DecidableEq, Repr

/-- `SkillResult`: the uniform wrapper every skill execution returns. -/
structure SkillResult (T : Type) where
  status : SkillStatus
  data : Option T := none
  error : Option String := none
  deriving DecidableEq, Repr

/-- Factory `SkillResult.success(data)`. -/
def SkillResult.success {T : Type} (data : T) : SkillResult T :=
  { status := SkillStatus.SUCCESS, data := some data }

/-- Factory `SkillResult.failed(error)`. -/
def SkillResult.failed {T : Type} (error : String) : SkillResult T :=
  { status := SkillStatus.FAILED, error := some error }

/-- Property `is_success`. -/
def SkillResult.is_success {T : Type} (r : SkillResult T) : Bool :=
  r.status = SkillStatus.SUCCESS

/-! ## Story generator (`src/story_generator.py`) -/

/-- The eight top-level fields a successfully parsed JSON story object
supplies to the `Story(**story_data, episode=..., date=...)` constructor in
`parse_story_response`.  A JSON object carrying its own `episode` or `date`
key makes that constructor call raise (duplicate keyword argument); the
surrounding `except` then falls through to the default document, so a
successful extraction never overrides the episode. -/
structure StoryData where
  title : String
  dish : String
  summary : String
  story : String
  cooking_steps : List String
  video_prompts : List String
  tags : List String
  description : String
  deriving DecidableEq, Repr

/-- `GeminiStoryGenerator.parse_story_response(text, episode)`.

`extract` is the combined outcome of the regex search, `json.loads` and the
`Story(**story_data, ...)` construction: `some d` when a JSON story object
was successfully extracted from `text`, `none` when the regex found no
braces, the JSON was malformed, or the `Story` construction raised — every
one of those paths is swallowed by the `except` clause and falls through to
the deterministic default document.  `mainChar` is
`settings.main_character_name`; `now` is `datetime.now().isoformat()`. -/
def parse_story_response (mainChar : String) (text : String) (episode : Int)
    (extract : Option StoryData) (now : String) : Story :=
  match extract with
  | some d =>
      { title := d.title, dish := d.dish, summary := d.summary,
        story := d.story, cooking_steps := d.cooking_steps,
        video_prompts := d.video_prompts, tags := d.tags,
        description := d.description,
        episode := some episode, date := some now }
  | none =>
      { title := "넝심이의 요리 - 에피소드 " ++ toString episode,
        dish := "특별한 요리",
        summary := "넝심이가 요리를 만드는 귀여운 영상",
        story := if text ≠ "" then text.take 500 else "넝심이가 요리를 만드는 스토리",
        cooking_steps := ["준비", "요리", "완성"],
        video_prompts :=
          [mainChar ++ "가 요리를 준비하는 모습",
           mainChar ++ "가 요리하는 모습",
           mainChar ++ "가 완성된 요리를 보여주는 모습"],
        tags := ["요리", "라쿤", "쇼츠"],
        description := if text ≠ "" then text.take 500 else "넝심이의 요리 영상",
        episode := some episode, date := some now }

/-- `GeminiStoryGenerator.generate_story(episode_number)`.

`histLen` is `len(self.story_history)` at call time; the episode defaults by
truthiness (`episode_number or len(self.story_history) + 1`).  `genText` is
the Gemini `generate_content` call: it may raise, and `generate_story`
re-raises that exception (`raise` in its `except` clause).  A parse failure
(`extract = none`) is NOT a failure of `generate_story`. -/
def generator_generate_story (mainChar : String) (episode_number : Option Int)
    (histLen : Nat) (genText : Except String String)
    (extract : Option StoryData) (now : String) : Except String Story :=
  let episode : Int :=
    if truthyI episode_number then episode_number.getD 0 else (histLen : Int) + 1
  match genText with
  | .error e => .error e
  | .ok text => .ok (parse_story_response mainChar text episode extract now)

/-- `GenerateStorySkill.execute` (`src/skills/story_skills.py`): wraps the
generator call, converting a raise into a failed `SkillResult`. -/
def generate_story_skill (mainChar : String) (episode_number : Option Int)
    (histLen : Nat) (genText : Except String String)
    (extract : Option StoryData) (now : String) : SkillResult Story :=
  match generator_generate_story mainChar episode_number histLen genText extract now with
  | .ok st => SkillResult.success st
  | .error e => SkillResult.failed ("Story generation failed: " ++ e)

/-! ## Story agent (`src/agents/story_agent.py`) -/

deriving instance DecidableEq for Except

/-- `StoryAgentResult` (pydantic model in `src/agents/story_agent.py`). -/
structure StoryAgentResult where
  story : Option Story := none
  story_id : Option Int := none
  episode : Int
  success : Bool := false
  error : Option String := none
  deriving DecidableEq, Repr

/-- The collaborator outcomes consumed by one `StoryAgent.run` call.

* `getHistory` — the list returned by `self.get_history()`; that helper
  swallows skill failures and returns `[]`, so it is modelled as total.
* `genText` — the Gemini call outcome inside `GenerateStorySkill`.
* `extract` — the JSON extraction outcome for the returned text.
* `saveStory` — `self.save_story(...)`: `.ok (some id)` on success,
  `.ok none` when the skill caught the database error and returned a failed
  result, `.error e` when the skill's own `rollback()` raised and the
  exception propagated into `run`'s `except` clause. -/
structure StoryRunOracles where
  getHistory : List StoryHistoryEntry
  genText : Except String String
  extract : Option StoryData
  nowIso : String
  saveStory : Except String (Option Int)
  deriving DecidableEq, Repr

/-- `StoryAgent.generate_story(episode, history)`: executes the
`generate_story` skill and returns `result.data if result.is_success else
None`.  When `history` is non-empty the skill loads it into the generator
first, so the generator's history length equals `history.length`; a fresh
generator otherwise has an empty history, and either way the truthiness
fallback inside the generator yields `history.length + 1` for a zero
episode argument. -/
def story_agent_generate (mainChar : String) (episode : Int)
    (history : List StoryHistoryEntry) (genText : Except String String)
    (extract : Option StoryData) (now : String) : Option Story :=
  let r := generate_story_skill mainChar (some episode) history.length genText extract now
  if r.is_success then r.data else none

/-- `StoryAgent.run(episode, save_to_db)` (`src/agents/story_agent.py`,
lines 82–138).  `hasDb` models `self.db_session is not None`. -/
def story_agent_run (mainChar : String) (hasDb : Bool) (episode : Option Int)
    (save_to_db : Bool) (o : StoryRunOracles) : StoryAgentResult :=
  let history := o.getHistory
  -- `if episode is None: episode = len(history) + 1` — an `is None` check,
  -- not a truthiness check.
  let ep : Int := episode.getD ((history.length : Int) + 1)
  match story_agent_generate mainChar ep history o.genText o.extract o.nowIso with
  | none =>
      { episode := ep, success := false, error := some "Failed to generate story" }
  | some st =>
      match (if save_to_db && hasDb then o.saveStory else .ok none) with
      | .error e =>
          -- `except Exception as e:` path; `episode or 0` equals `ep` here
          -- because a falsy `ep` can only be `0` itself.
          { episode := if ep ≠ 0 then ep else 0, success := false, error := some e }
      | .ok sid =>
          { story := some st, story_id := sid, episode := ep, success := true }

/-! ## Video generator (`src/video_generator.py`) -/

/-- Outcome of one Veo3 render attempt as seen by `generate_video`:
the polling loop finished with generated videos and the download and save
succeeded (`success`), the API call / polling / download raised
(`apiRaise`), or the finished operation carried no generated videos, which
makes `generate_video` raise a `ValueError` internally (`emptyResponse`).
Both raising outcomes are caught by the same `except` clause. -/
inductive RenderOutcome where
  | success
  | apiRaise (msg : String)
  | emptyResponse
  deriving DecidableEq, Repr

/-- Does this outcome reach the `except` clause of `generate_video`? -/
def RenderOutcome.fails : RenderOutcome → Bool
  | .success => false
  | .apiRaise _ => true
  | .emptyResponse => true

/-- `Veo3VideoGenerator._generate_mock_video(prompt)`: the placeholder
result, same path contract (`video_url` under `output_dir`), provenance
flag `mock = True`.  `t` is `int(time.time())` at the call. -/
def generate_mock_video (outputDir : String) (t : Nat) : VideoGenerationResult :=
  { video_url := some (outputDir ++ "/mock_video_" ++ toString t ++ ".mp4"),
    status := "completed", mock := true }

/-- `Veo3VideoGenerator.generate_video(prompt, ...)` (lines 33–100): on any
raise it falls back to the mock result instead of propagating. -/
def generate_video (outputDir : String) (t : Nat)
    (outcome : RenderOutcome) : VideoGenerationResult :=
  match outcome with
  | .success =>
      { video_url := some (outputDir ++ "/veo3_" ++ toString t ++ ".mp4"),
        status := "completed", mock := false }
  | .apiRaise _ => generate_mock_video outputDir t
  | .emptyResponse => generate_mock_video outputDir t

/-- The `videos` list accumulated by `generate_video_sequence`: one render
attempt per prompt, in order, keeping `result.video_url` whenever it is
truthy and the status is `"completed"`.  `outcome i` and `segTime i` are the
renderer outcome and `int(time.time())` for segment `i`. -/
def collectVideos (outputDir : String) (prompts : List String)
    (outcome : Nat → RenderOutcome) (segTime : Nat → Nat) : List String :=
  (List.range prompts.length).filterMap (fun i =>
    let r := generate_video outputDir (segTime i) (outcome i)
    if truthyS r.video_url && r.status == "completed" then r.video_url else none)

/-- A single quote character, as written into the ffmpeg concat file list. -/
def squote : String := String.mk [Char.ofNat 39]

/-- One line of the ffmpeg concat file list: the word `file` followed by the
path wrapped in single quotes, exactly as `merge_videos` renders it. -/
def fileListLine (p : String) : String := "file " ++ squote ++ p ++ squote

/-- Result of one `merge_videos` call: the concat file-list lines it wrote
(in the order of the given paths) and either the output path or the
propagated `CalledProcessError`. -/
structure MergeCall where
  fileListLines : List String
  result : Except String String
  deriving DecidableEq, Repr

/-- `Veo3VideoGenerator.merge_videos(video_paths, output_filename)`
(lines 122–157).  `tool` is the ffmpeg subprocess outcome; on a tool error
the exception is re-raised (`raise`), not retried.  `tMerge` is
`int(time.time())` used for the default output filename. -/
def merge_videos (outputDir : String) (video_paths : List String)
    (output_filename : Option String) (tMerge : Nat)
    (tool : Except String Unit) : MergeCall :=
  let name := match output_filename with
    | some f => if f = "" then "final_video_" ++ toString tMerge ++ ".mp4" else f
    | none => "final_video_" ++ toString tMerge ++ ".mp4"
  { fileListLines := video_paths.map fileListLine,
    result := match tool with
      | .ok _ => .ok (outputDir ++ "/" ++ name)
      | .error e => .error e }

/-- Trace of one `generate_video_sequence` call: the returned path (or the
exception propagated from `merge_videos`), how many times the merge ran,
which paths were handed to it, and the concat file list it wrote. -/
structure SequenceRun where
  result : Except String String
  mergeCount : Nat
  mergeInput : List String
  fileListLines : List String
  deriving DecidableEq, Repr

/-- `Veo3VideoGenerator.generate_video_sequence(prompts, duration,
output_filename)` (lines 102–120): render every prompt in order, then merge
iff more than one path was collected; with zero paths it returns `""`, with
exactly one it returns that path directly. -/
def generate_video_sequence (outputDir : String) (prompts : List String)
    (outcome : Nat → RenderOutcome) (segTime : Nat → Nat)
    (output_filename : Option String) (tMerge : Nat)
    (tool : Except String Unit) : SequenceRun :=
  let videos := collectVideos outputDir prompts outcome segTime
  if videos.length > 1 then
    let m := merge_videos outputDir videos output_filename tMerge tool
    { result := m.result, mergeCount := 1, mergeInput := videos,
      fileListLines := m.fileListLines }
  else
    { result := .ok (videos.headD ""), mergeCount := 0, mergeInput := [],
      fileListLines := [] }

/-! ## Video agent (`src/agents/video_agent.py`) -/

/-- `VideoAgentResult` (pydantic model in `src/agents/video_agent.py`). -/
structure VideoAgentResult where
  video_path : Option String := none
  video_generation_id : Option Int := none
  segment_count : Nat := 0
  success : Bool := false
  error : Option String := none
  deriving DecidableEq, Repr

/-- The collaborator outcomes consumed by one `VideoAgent.run` call.

* `saveGen` — `self.save_generation_record(...)`: `.ok (some id)` on
  success, `.ok none` when the skill swallowed the database error,
  `.error e` when the skill's `rollback()` itself raised.
* `seqPath` — `self.generate_video_sequence(...)`: the skill catches every
  exception, so this helper returns `none` on failure (and may return
  `some ""` when the sequence collected no paths).
* `updTry` — the `update_generation_record` call made inside the `try`
  block (at most one such call happens: either the failure update or the
  completed update); `.error` models its `rollback()` raising.
* `updExc` — the `update_generation_record` call made inside the `except`
  handler. -/
structure VideoRunOracles where
  saveGen : Except String (Option Int)
  seqPath : Option String
  updTry : Except String Bool
  updExc : Except String Bool
  deriving DecidableEq, Repr

/-- The tail of `VideoAgent.run` after the generation record was (maybe)
created: run the sequence, update the record, and build the result.  A
`.error` return models an exception propagating out of `run` — which
happens exactly when an update call raised inside the `try` block and the
update retried inside the `except` handler raised as well. -/
def video_agent_run_body (hasDb : Bool) (n : Nat) (vgid : Option Int)
    (o : VideoRunOracles) : Except String VideoAgentResult :=
  match (if truthyS o.seqPath then o.seqPath else none) with
  | none =>
      -- `if not video_path:` — the failure branch.
      if truthyI vgid then
        match (if hasDb then o.updTry else .ok false) with
        | .error e =>
            match (if hasDb then o.updExc else .ok false) with
            | .error e2 => .error e2
            | .ok _ =>
                .ok { video_generation_id := vgid, segment_count := n,
                      success := false, error := some e }
        | .ok _ =>
            .ok { video_generation_id := vgid, segment_count := n,
                  success := false, error := some "Failed to generate video sequence" }
      else
        .ok { video_generation_id := vgid, segment_count := n,
              success := false, error := some "Failed to generate video sequence" }
  | some p =>
      -- success branch: update the record to completed, then return.
      if truthyI vgid then
        match (if hasDb then o.updTry else .ok false) with
        | .error e =>
            match (if hasDb then o.updExc else .ok false) with
            | .error e2 => .error e2
            | .ok _ =>
                .ok { video_generation_id := vgid, segment_count := n,
                      success := false, error := some e }
        | .ok _ =>
            .ok { video_path := some p, video_generation_id := vgid,
                  segment_count := n, success := true }
      else
        .ok { video_path := some p, video_generation_id := vgid,
              segment_count := n, success := true }

/-- `VideoAgent.run(prompts, story_id, duration, output_filename)`
(`src/agents/video_agent.py`, lines 139–227). -/
def video_agent_run (hasDb : Bool) (prompts : List String)
    (story_id : Option Int) (o : VideoRunOracles) :
    Except String VideoAgentResult :=
  if truthyI story_id && hasDb then
    match o.saveGen with
    | .error e =>
        -- the raise is caught by `except`; `video_generation_id` is still
        -- `None` there, so no update call is made.
        .ok { video_generation_id := none, segment_count := prompts.length,
              success := false, error := some e }
    | .ok vg => video_agent_run_body hasDb prompts.length vg o
  else
    video_agent_run_body hasDb prompts.length none o

/-! ## YouTube agent (`src/agents/youtube_agent.py`) -/

/-- `YouTubeAgentResult` (pydantic model in `src/agents/youtube_agent.py`). -/
structure YouTubeAgentResult where
  video_id : Option String := none
  video_url : Option String := none
  upload_record_id : Option Int := none
  success : Bool := false
  error : Option String := none
  deriving DecidableEq, Repr

/-- The collaborator outcomes consumed by one `YouTubeAgent.run` call.
`uploadRes` is `self.upload_video(...)` (the skill catches every raise, so
failures surface as `none`); `saveUpload` is `self.save_upload_record(...)`
(its skill's `rollback()` may raise, landing in `run`'s `except`). -/
structure YtRunOracles where
  uploadRes : Option YouTubeUploadResult
  saveUpload : Except String (Option Int)
  deriving DecidableEq, Repr

/-- `YouTubeAgent.run(...)` (`src/agents/youtube_agent.py`, lines 101–172). -/
def youtube_agent_run (hasDb : Bool) (story_id : Option Int)
    (o : YtRunOracles) : YouTubeAgentResult :=
  match o.uploadRes with
  | none =>
      { success := false, error := some "Failed to upload video to YouTube" }
  | some ur =>
      match (if truthyI story_id && hasDb then o.saveUpload else .ok none) with
      | .error e => { success := false, error := some e }
      | .ok rid =>
          { video_id := some ur.video_id, video_url := some ur.url,
            upload_record_id := rid, success := true }

/-! ## Workflow orchestrator (`src/workflow.py`) -/

/-- The collaborator outcomes consumed by one graph execution: the loaded
history (`load_history_node` swallows its own errors, so this is simply the
resulting list), the three agent results, and the `save_history_node`
commit-and-reload outcome (`.error` models the caught exception there). -/
structure GraphOracles where
  loadedHistory : List StoryHistoryEntry
  storyRes : StoryAgentResult
  videoRes : VideoAgentResult
  ytRes : YouTubeAgentResult
  saveHistory : Except String (List StoryHistoryEntry)
  deriving DecidableEq, Repr

/-- `load_history_node` (lines 72–96): load the history (errors swallowed,
leaving `[]`), then stamp the step name. -/
def load_history_node (h : List StoryHistoryEntry) (s : WorkflowState) :
    WorkflowState :=
  { s with story_history := h, current_step := "load_history" }

/-- The episode number `generate_story_node` passes to the story agent:
`state.episode_number or len(state.story_history) + 1` (truthiness). -/
def workflow_episode (s : WorkflowState) : Int :=
  if truthyI s.episode_number then s.episode_number.getD 0
  else (s.story_history.length : Int) + 1

/-- `generate_story_node` (lines 98–123): raise-and-catch on a failed or
story-less agent result, otherwise record the story and its record id. -/
def generate_story_node (res : StoryAgentResult) (s : WorkflowState) :
    WorkflowState :=
  if !res.success || res.story = none then
    { s with error := some (strOr res.error "스토리 생성 실패"), current_step := "error" }
  else
    { s with story := res.story, story_id := res.story_id,
             current_step := "generate_story" }

/-- `generate_videos_node` (lines 125–167).  The second component records
whether `self.video_agent.run` was invoked. -/
def generate_videos_node (cfg : AppSettings) (res : VideoAgentResult)
    (s : WorkflowState) : WorkflowState × Bool :=
  match s.story with
  | none =>
      ({ s with error := some "스토리가 생성되지 않았습니다.", current_step := "error" }, false)
  | some _ =>
      if cfg.skip_video_generation then
        if cfg.test_video_path = "" then
          ({ s with
              error := some "skip_video_generation=True이지만 test_video_path가 설정되지 않았습니다.",
              current_step := "error" }, false)
        else
          ({ s with final_video_path := some cfg.test_video_path,
                    video_generation_id := none,
                    current_step := "generate_videos" }, false)
      else
        if !res.success || !truthyS res.video_path then
          ({ s with error := some (strOr res.error "영상 생성 실패"),
                    current_step := "error" }, true)
        else
          ({ s with final_video_path := res.video_path,
                    video_generation_id := res.video_generation_id,
                    current_step := "generate_videos" }, true)

/-- `upload_to_youtube_node` (lines 169–207).  The second component records
whether `self.youtube_agent.run` was invoked. -/
def upload_to_youtube_node (res : YouTubeAgentResult) (s : WorkflowState) :
    WorkflowState × Bool :=
  match s.story with
  | none =>
      ({ s with error := some "스토리나 영상 경로가 없습니다.", current_step := "error" }, false)
  | some st =>
      if !truthyS s.final_video_path then
        ({ s with error := some "스토리나 영상 경로가 없습니다.", current_step := "error" }, false)
      else if !res.success then
        ({ s with error := some (strOr res.error "YouTube 업로드 실패"),
                  current_step := "error" }, true)
      else
        ({ s with
            upload_result := some
              { video_id := res.video_id.getD "", url := res.video_url.getD "",
                title := st.title },
            youtube_upload_id := res.upload_record_id,
            current_step := "upload_to_youtube" }, true)

/-- `save_history_node` (lines 209–251), database branch: commit and reload
the history; a caught exception only records the error message. -/
def save_history_node (h : Except String (List StoryHistoryEntry))
    (s : WorkflowState) : WorkflowState :=
  match h with
  | .ok l => { s with story_history := l, current_step := "save_history" }
  | .error e => { s with error := some e }

/-- `handle_error_node` (lines 253–257). -/
def handle_error_node (s : WorkflowState) : WorkflowState :=
  { s with current_step := "error" }

/-- `should_continue_after_story` (lines 259–263). -/
def should_continue_after_story (s : WorkflowState) : String :=
  if truthyS s.error || s.story = none then "error" else "continue"

/-- `should_continue_after_videos` (lines 265–269). -/
def should_continue_after_videos (s : WorkflowState) : String :=
  if truthyS s.error || !truthyS s.final_video_path then "error" else "continue"

/-- `should_continue_after_upload` (lines 271–275). -/
def should_continue_after_upload (s : WorkflowState) : String :=
  if truthyS s.error || s.upload_result = none then "error" else "continue"

/-- Trace of one LangGraph execution: the terminal state, the node names in
execution order, and whether the video / YouTube agents were invoked. -/
structure RunTrace where
  final : WorkflowState
  executed : List String
  videoAgentCalled : Bool
  uploadAgentCalled : Bool
  deriving DecidableEq, Repr

/-- The compiled graph of `_build_graph` (lines 37–70), executed on an
initial state: `load_history → generate_story →(cond) generate_videos
→(cond) upload_to_youtube →(cond) save_history → END`, with each
conditional edge routing to `handle_error → END` on `"error"`. -/
def runGraph (cfg : AppSettings) (o : GraphOracles) (s0 : WorkflowState) :
    RunTrace :=
  let s1 := load_history_node o.loadedHistory s0
  let s2 := generate_story_node o.storyRes s1
  if should_continue_after_story s2 = "continue" then
    let p3 := generate_videos_node cfg o.videoRes s2
    if should_continue_after_videos p3.1 = "continue" then
      let p4 := upload_to_youtube_node o.ytRes p3.1
      if should_continue_after_upload p4.1 = "continue" then
        let s5 := save_history_node o.saveHistory p4.1
        { final := s5,
          executed := ["load_history", "generate_story", "generate_videos",
                       "upload_to_youtube", "save_history"],
          videoAgentCalled := p3.2, uploadAgentCalled := p4.2 }
      else
        { final := handle_error_node p4.1,
          executed := ["load_history", "generate_story", "generate_videos",
                       "upload_to_youtube", "handle_error"],
          videoAgentCalled := p3.2, uploadAgentCalled := p4.2 }
    else
      { final := handle_error_node p3.1,
        executed := ["load_history", "generate_story", "generate_videos",
                     "handle_error"],
        videoAgentCalled := p3.2, uploadAgentCalled := false }
  else
    { final := handle_error_node s2,
      executed := ["load_history", "generate_story", "handle_error"],
      videoAgentCalled := false, uploadAgentCalled := false }

/-- The initial `WorkflowState` built by `VideoWorkflowAgent.run`
(lines 304–310). -/
def initial_state (episode_number : Option Int) (private? : Bool)
    (ts : String) (execution_id : Option Int) : WorkflowState :=
  { episode_number := episode_number,
    privacy_status := if private? then "private" else "public",
    timestamp := some ts, execution_id := execution_id }

/-- The Ledger status `VideoWorkflowAgent.run` writes on exit
(lines 317–331): `"completed" if not error else "failed"`, by truthiness of
the terminal state's error field. -/
def finalLedgerStatus (s : WorkflowState) : String :=
  if truthyS s.error then "failed" else "completed"

/-! ## Execution ledger (`src/db_models.py`, `src/repository.py`) -/

/-- A Python `datetime` at whole-second granularity: the wall-clock reading
and, when timezone-aware, the UTC offset in seconds (`none` = naive).  The
instant denoted by an aware datetime is `wall - offset` in UTC seconds. -/
structure PyDatetime where
  wall : Int
  tz : Option Int
  deriving DecidableEq, Repr

/-- The UTC instant of an aware datetime (`getD 0` is never relevant: the
code only subtracts datetimes after making both aware). -/
def awareInstant (d : PyDatetime) : Int := d.wall - d.tz.getD 0

/-- `started.replace(tzinfo=timezone.utc)` applied only when naive:
reinterpret the same wall-clock reading as UTC. -/
def normalizeToUtc (d : PyDatetime) : PyDatetime :=
  if d.tz = none then { d with tz := some 0 } else d

/-- The `WorkflowExecution` row (`src/db_models.py`, lines 89–113). -/
structure WorkflowExecution where
  episode_number : Option Int := none
  status : String
  current_step : Option String := none
  story_id : Option Int := none
  video_generation_id : Option Int := none
  youtube_upload_id : Option Int := none
  error_message : Option String := none
  started_at : Option PyDatetime := none
  completed_at : Option PyDatetime := none
  duration_seconds : Option Int := none
  deriving DecidableEq, Repr

/-- The keyword arguments of one `WorkflowExecutionRepository.update` call
(all default to `None` in the source). -/
structure UpdateArgs where
  status : Option String := none
  current_step : Option String := none
  story_id : Option Int := none
  video_generation_id : Option Int := none
  youtube_upload_id : Option Int := none
  error_message : Option String := none
  deriving DecidableEq, Repr

/-- `WorkflowExecutionRepository.update` (`src/repository.py`,
lines 183–226), on a row that exists.  Each field is overwritten only when
the corresponding argument is truthy; then, whenever the *argument* status
is `"completed"` or `"failed"`, `completed_at` is stamped with
`datetime.now(timezone.utc)` (the parameter `now`, as a UTC wall-clock
reading) and, when `started_at` is present, `duration_seconds` is
recomputed from the normalized start. -/
def applyFieldArgs (e : WorkflowExecution) (a : UpdateArgs) :
    WorkflowExecution :=
  { e with
    status := if truthyS a.status then a.status.getD e.status else e.status,
    current_step := if truthyS a.current_step then a.current_step else e.current_step,
    story_id := if truthyI a.story_id then a.story_id else e.story_id,
    video_generation_id :=
      if truthyI a.video_generation_id then a.video_generation_id
      else e.video_generation_id,
    youtube_upload_id :=
      if truthyI a.youtube_upload_id then a.youtube_upload_id
      else e.youtube_upload_id,
    error_message :=
      if truthyS a.error_message then a.error_message else e.error_message }

/-- The terminal-status block of `update` (lines 213–221): stamp
`completed_at` and recompute `duration_seconds` from the normalized start,
every time the call's status argument is terminal. -/
def stampCompletion (e : WorkflowExecution) (a : UpdateArgs) (now : Int) :
    WorkflowExecution :=
  if a.status = some "completed" ∨ a.status = some "failed" then
    let completed : PyDatetime := { wall := now, tz := some 0 }
    match e.started_at with
    | some st =>
        { e with completed_at := some completed,
                 duration_seconds :=
                   some (awareInstant completed - awareInstant (normalizeToUtc st)) }
    | none => { e with completed_at := some completed }
  else e

def updateExecution (e : WorkflowExecution) (a : UpdateArgs) (now : Int) :
    WorkflowExecution :=
  stampCompletion (applyFieldArgs e a) a now

/-- A sequence of `update` calls applied to one row, each with its own
`datetime.now(timezone.utc)` reading. -/
def applyUpdates (e : WorkflowExecution) (ops : List (UpdateArgs × Int)) :
    WorkflowExecution :=
  ops.foldl (fun acc op => updateExecution acc op.1 op.2) e

/-- Is this a terminal ledger status? -/
def isTerminal (s : String) : Bool := s == "completed" || s == "failed"

/-- The arguments `VideoWorkflowAgent.run` passes to `exec_repo.update` on
the normal exit path (lines 324–331). -/
def exitUpdateArgs (s : WorkflowState) : UpdateArgs :=
  { status := some (finalLedgerStatus s),
    story_id := s.story_id,
    video_generation_id := s.video_generation_id,
    youtube_upload_id := s.youtube_upload_id,
    error_message := s.error }

/-! ## Stage-failure predicates on the graph oracles -/

/-- The Story Stage records an error / misses its artifact: the condition of
`if not result.success or not result.story:` in `generate_story_node`. -/
def storyStageFails (o : GraphOracles) : Bool :=
  !o.storyRes.success || o.storyRes.story = none

/-- The Video Stage records an error / misses its artifact: in skip mode the
missing test path, otherwise the condition of
`if not result.success or not result.video_path:`. -/
def videoStageFails (cfg : AppSettings) (o : GraphOracles) : Bool :=
  if cfg.skip_video_generation then cfg.test_video_path = ""
  else !o.videoRes.success || !truthyS o.videoRes.video_path

/-- The Publish Stage records an error: the condition of
`if not result.success:` in `upload_to_youtube_node` (on success the
`upload_result` artifact is always constructed). -/
def uploadStageFails (o : GraphOracles) : Bool :=
  !o.ytRes.success

/-! ## Claim theorems -/

/-- **C9.** The Step Result factories satisfy their contract: for every
payload `p`, `success(p)` has `is_success` true, carries exactly `p` as its
data and no error string; for every message `m`, `failed(m)` has
`is_success` false, a non-null error string equal to `m`, and no payload.
(Every skill execution returns exactly one `SkillResult` by the return type
of `BaseSkill.execute`, reflected here in the Lean result types of the
skill and agent embeddings.) -/
theorem skillResult_factory_contract :
    ∀ (T : Type) (p : T) (m : String),
      (SkillResult.success p).is_success = true ∧
      (SkillResult.success p).data = some p ∧
      (SkillResult.success p).error = none ∧
      (SkillResult.failed m : SkillResult T).is_success = false ∧
      (SkillResult.failed m : SkillResult T).error = some m ∧
      (SkillResult.failed m : SkillResult T).data = none := by
  intro T p m
  simp [SkillResult.success, SkillResult.failed, SkillResult.is_success]

/-- **C5.** For every generator response text with no parseable JSON story
object (`extract = none`), parsing returns the deterministic default
document: every field except `story`, `description` (which embed the first
500 characters of the input text) and the timestamp `date` is fixed; two
parses of the same text and episode at different times agree on everything
but `date`; and the surrounding generation skill still reports success —
the parse failure never raises and never becomes a Story Stage failure. -/
theorem parse_fallback_deterministic :
    ∀ (mainChar text : String) (ep : Int) (nowA nowB : String)
      (episodeArg : Option Int) (histLen : Nat),
      (parse_story_response mainChar text ep none nowA).title =
          "넝심이의 요리 - 에피소드 " ++ toString ep ∧
      (parse_story_response mainChar text ep none nowA).dish = "특별한 요리" ∧
      (parse_story_response mainChar text ep none nowA).summary =
          "넝심이가 요리를 만드는 귀여운 영상" ∧
      (parse_story_response mainChar text ep none nowA).cooking_steps =
          ["준비", "요리", "완성"] ∧
      (parse_story_response mainChar text ep none nowA).video_prompts =
          [mainChar ++ "가 요리를 준비하는 모습",
           mainChar ++ "가 요리하는 모습",
           mainChar ++ "가 완성된 요리를 보여주는 모습"] ∧
      (parse_story_response mainChar text ep none nowA).tags =
          ["요리", "라쿤", "쇼츠"] ∧
      (parse_story_response mainChar text ep none nowA).story =
          (if text ≠ "" then text.take 500 else "넝심이가 요리를 만드는 스토리") ∧
      (parse_story_response mainChar text ep none nowA).description =
          (if text ≠ "" then text.take 500 else "넝심이의 요리 영상") ∧
      (parse_story_response mainChar text ep none nowA).episode = some ep ∧
      (parse_story_response mainChar text ep none nowA).date = some nowA ∧
      { parse_story_response mainChar text ep none nowA with date := none } =
          { parse_story_response mainChar text ep none nowB with date := none } ∧
      (generate_story_skill mainChar episodeArg histLen (.ok text) none nowA).is_success
          = true := by
  intro mainChar text ep nowA nowB episodeArg histLen
  refine ⟨rfl, rfl, rfl, rfl, rfl, rfl, rfl, rfl, rfl, rfl, rfl, ?_⟩
  simp [generate_story_skill, generator_generate_story, SkillResult.success,
    SkillResult.is_success]

theorem parse_story_response_episode (mc text : String) (ep : Int)
    (x : Option StoryData) (now : String) :
    (parse_story_response mc text ep x now).episode = some ep := by
  cases x <;> rfl

theorem story_agent_generate_episode (mc : String) (ep : Int)
    (hist : List StoryHistoryEntry) (g : Except String String)
    (x : Option StoryData) (now : String) (st : Story) (hep : ep ≠ 0) :
    story_agent_generate mc ep hist g x now = some st →
    st.episode = some ep := by
  unfold story_agent_generate generate_story_skill generator_generate_story
  cases g with
  | error e =>
      simp [SkillResult.failed, SkillResult.is_success]
  | ok text =>
      simp [SkillResult.success, SkillResult.is_success, truthyI, hep]
      intro h
      rw [← h, parse_story_response_episode]

/-- **C2.** With no explicit episode number (`episode = None`), the Story
Stage assigns episode `n + 1` where `n` is the length of the prior-episode
history it retrieved, and the generated story document (when one is
produced) carries exactly that episode number; the workflow node computes
the same `len(state.story_history) + 1` fallback. -/
theorem story_episode_auto_assign :
    ∀ (mainChar : String) (hasDb save_to_db : Bool) (o : StoryRunOracles),
      (story_agent_run mainChar hasDb none save_to_db o).episode =
          (o.getHistory.length : Int) + 1 ∧
      (∀ st : Story,
          (story_agent_run mainChar hasDb none save_to_db o).story = some st →
          st.episode = some ((o.getHistory.length : Int) + 1)) ∧
      (∀ s : WorkflowState, s.episode_number = none →
          workflow_episode s = (s.story_history.length : Int) + 1) := by
  intro mc hasDb stdb o
  have hep : ((o.getHistory.length : Int) + 1) ≠ 0 := by omega
  refine ⟨?_, ?_, ?_⟩
  · unfold story_agent_run
    simp only [Option.getD_none]
    rcases hg : story_agent_generate mc ((o.getHistory.length : Int) + 1)
        o.getHistory o.genText o.extract o.nowIso with _ | st
    · simp
    · rcases hs : (if stdb && hasDb then o.saveStory else .ok none) with e | sid
      · simp [hs, hep]
      · simp [hs]
  · intro st
    unfold story_agent_run
    simp only [Option.getD_none]
    rcases hg : story_agent_generate mc ((o.getHistory.length : Int) + 1)
        o.getHistory o.genText o.extract o.nowIso with _ | st2
    · simp
    · rcases hs : (if stdb && hasDb then o.saveStory else .ok none) with e | sid
      · simp [hs]
      · simp only [hs]
        intro h
        have h2 : st2 = st := by simpa using h
        exact h2 ▸ story_agent_generate_episode mc _ o.getHistory o.genText
          o.extract o.nowIso st2 hep hg
  · intro s hs
    simp [workflow_episode, hs, truthyI]

theorem story_episode_auto_assign_witness :
    (story_agent_run "A" true none false
        { getHistory := [], genText := .ok "x", extract := none,
          nowIso := "t", saveStory := .ok none }).episode = 1 ∧
    (parse_story_response "A" "x" 1 none "t").episode = some 1 ∧
    workflow_episode (initial_state none false "t" none) = 1 := by
  refine ⟨?_, ?_, ?_⟩
  · exact (story_episode_auto_assign "A" true false
      { getHistory := [], genText := .ok "x", extract := none,
        nowIso := "t", saveStory := .ok none }).1
  · exact (story_episode_auto_assign "A" true false
      { getHistory := [], genText := .ok "x", extract := none,
        nowIso := "t", saveStory := .ok none }).2.1
      (parse_story_response "A" "x" 1 none "t") rfl
  · exact (story_episode_auto_assign "A" true false
      { getHistory := [], genText := .ok "x", extract := none,
        nowIso := "t", saveStory := .ok none }).2.2
      (initial_state none false "t" none) rfl

theorem append_mp4_ne_empty (s : String) : s ++ ".mp4" ≠ "" := by
  intro h
  have h1 : (s ++ ".mp4").length = 0 := by rw [h]; rfl
  rw [String.length_append] at h1
  have h2 : (".mp4" : String).length = 4 := rfl
  omega

theorem length_filterMap_of_isSome {α β : Type} (l : List α) (f : α → Option β)
    (h : ∀ a ∈ l, (f a).isSome = true) :
    (l.filterMap f).length = l.length := by
  induction l with
  | nil => rfl
  | cons x xs ih =>
    rcases hf : f x with _ | b
    · exact absurd (h x (by simp)) (by simp [hf])
    · rw [List.filterMap_cons_some hf]
      simp only [List.length_cons]
      rw [ih (fun a ha => h a (by simp [ha]))]

theorem generate_video_of_fails (outputDir : String) (t : Nat)
    (oc : RenderOutcome) (hf : oc.fails = true) :
    generate_video outputDir t oc = generate_mock_video outputDir t := by
  cases oc with
  | success => simp [RenderOutcome.fails] at hf
  | apiRaise m => rfl
  | emptyResponse => rfl

/-- **C6.** A segment whose render raises does not abort the Video Stage:
it falls back to a placeholder result that still carries a (non-empty) path
and is flagged `mock`; when the renderer raises on every one of `k ≥ 1`
segments, all `k` placeholder paths are collected, for `k > 1` the
concatenation is still attempted on exactly those `k` paths, and (when the
concatenation tool succeeds) the stage still returns a path. -/
theorem render_failure_falls_back_to_mock :
    ∀ (outputDir : String) (prompts : List String)
      (outcome : Nat → RenderOutcome) (segTime : Nat → Nat)
      (ofn : Option String) (tMerge : Nat) (tool : Except String Unit),
      prompts ≠ [] →
      (∀ i, i < prompts.length → (outcome i).fails = true) →
      (∀ i, i < prompts.length →
          (generate_video outputDir (segTime i) (outcome i)).mock = true ∧
          truthyS (generate_video outputDir (segTime i) (outcome i)).video_url
            = true) ∧
      (collectVideos outputDir prompts outcome segTime).length =
          prompts.length ∧
      (1 < prompts.length →
          (generate_video_sequence outputDir prompts outcome segTime ofn
              tMerge tool).mergeCount = 1 ∧
          (generate_video_sequence outputDir prompts outcome segTime ofn
              tMerge tool).mergeInput =
            collectVideos outputDir prompts outcome segTime) ∧
      (tool = .ok () →
          ∃ p, (generate_video_sequence outputDir prompts outcome segTime ofn
              tMerge tool).result = .ok p) := by
  intro outputDir prompts outcome segTime ofn tMerge tool hne hfails
  have hseg : ∀ i, i < prompts.length →
      (generate_video outputDir (segTime i) (outcome i)).mock = true ∧
      truthyS (generate_video outputDir (segTime i) (outcome i)).video_url
        = true := by
    intro i hi
    rw [generate_video_of_fails outputDir (segTime i) (outcome i) (hfails i hi)]
    refine ⟨rfl, ?_⟩
    simp only [generate_mock_video, truthyS]
    simp [append_mp4_ne_empty]
  have hlen : (collectVideos outputDir prompts outcome segTime).length =
      prompts.length := by
    unfold collectVideos
    rw [length_filterMap_of_isSome, List.length_range]
    intro i hi
    rw [List.mem_range] at hi
    have h1 := hseg i hi
    rcases hu : (generate_video outputDir (segTime i) (outcome i)).video_url
      with _ | p
    · rw [hu] at h1
      simp [truthyS] at h1
    · have hst : (generate_video outputDir (segTime i) (outcome i)).status
          = "completed" := by
        rw [generate_video_of_fails outputDir (segTime i) (outcome i)
          (hfails i hi)]
        rfl
      rw [hu] at h1
      simp [h1.2, hst, hu]
  refine ⟨hseg, hlen, ?_, ?_⟩
  · intro hk
    have hv : (collectVideos outputDir prompts outcome segTime).length > 1 := by
      omega
    unfold generate_video_sequence
    rw [if_pos hv]
    exact ⟨rfl, rfl⟩
  · intro htool
    subst htool
    unfold generate_video_sequence
    by_cases hv : (collectVideos outputDir prompts outcome segTime).length > 1
    · rw [if_pos hv]
      exact ⟨_, rfl⟩
    · rw [if_neg hv]
      exact ⟨_, rfl⟩

theorem render_failure_falls_back_to_mock_witness :
    (collectVideos "out" ["a", "b", "c"] (fun _ => .apiRaise "boom")
        (fun i => i)).length = 3 ∧
    (generate_video_sequence "out" ["a", "b", "c"] (fun _ => .apiRaise "boom")
        (fun i => i) none 0 (.ok ())).mergeCount = 1 ∧
    (∃ p, (generate_video_sequence "out" ["a", "b", "c"]
        (fun _ => .apiRaise "boom") (fun i => i) none 0 (.ok ())).result =
          .ok p) := by
  have h := render_failure_falls_back_to_mock "out" ["a", "b", "c"]
    (fun _ => .apiRaise "boom") (fun i => i) none 0 (.ok ())
    (by decide) (fun i _ => rfl)
  exact ⟨h.2.1, (h.2.2.1 (by decide)).1, h.2.2.2 rfl⟩

/-- **C7.** If exactly one segment produced a usable path, that path is
returned directly and the concatenation is never invoked; with more than
one path the merge is invoked exactly once on the collected paths in their
original order — the concat file list is exactly the in-order rendering of
those paths — and a concatenation tool failure propagates as a hard stage
failure; in every case the merge runs at most once (never retried). -/
theorem video_sequence_merge_contract :
    ∀ (outputDir : String) (prompts : List String)
      (outcome : Nat → RenderOutcome) (segTime : Nat → Nat)
      (ofn : Option String) (tMerge : Nat) (tool : Except String Unit),
      (∀ p, collectVideos outputDir prompts outcome segTime = [p] →
          (generate_video_sequence outputDir prompts outcome segTime ofn
              tMerge tool).result = .ok p ∧
          (generate_video_sequence outputDir prompts outcome segTime ofn
              tMerge tool).mergeCount = 0) ∧
      (1 < (collectVideos outputDir prompts outcome segTime).length →
          (generate_video_sequence outputDir prompts outcome segTime ofn
              tMerge tool).mergeCount = 1 ∧
          (generate_video_sequence outputDir prompts outcome segTime ofn
              tMerge tool).mergeInput =
              collectVideos outputDir prompts outcome segTime ∧
          (generate_video_sequence outputDir prompts outcome segTime ofn
              tMerge tool).fileListLines =
              (collectVideos outputDir prompts outcome segTime).map
                fileListLine ∧
          (∀ e, tool = .error e →
              (generate_video_sequence outputDir prompts outcome segTime ofn
                  tMerge tool).result = .error e)) ∧
      (generate_video_sequence outputDir prompts outcome segTime ofn
          tMerge tool).mergeCount ≤ 1 := by
  intro outputDir prompts outcome segTime ofn tMerge tool
  refine ⟨?_, ?_, ?_⟩
  · intro p hp
    have hv : ¬ (collectVideos outputDir prompts outcome segTime).length > 1 := by
      rw [hp]; simp
    unfold generate_video_sequence
    rw [if_neg hv]
    rw [hp]
    exact ⟨rfl, rfl⟩
  · intro hv
    unfold generate_video_sequence
    rw [if_pos (by omega : (collectVideos outputDir prompts outcome
        segTime).length > 1)]
    refine ⟨rfl, rfl, rfl, ?_⟩
    intro e he
    subst he
    rfl
  · unfold generate_video_sequence
    by_cases hv : (collectVideos outputDir prompts outcome segTime).length > 1
    · rw [if_pos hv]
    · rw [if_neg hv]
      exact Nat.zero_le 1

theorem video_sequence_merge_contract_witness :
    ((generate_video_sequence "out" ["a"] (fun _ => .success) (fun _ => 5)
        none 0 (.ok ())).result = .ok "out/veo3_5.mp4" ∧
      (generate_video_sequence "out" ["a"] (fun _ => .success) (fun _ => 5)
        none 0 (.ok ())).mergeCount = 0) ∧
    (generate_video_sequence "out" ["a", "b"] (fun _ => .success)
        (fun i => i) none 0 (.error "ffmpeg")).result = .error "ffmpeg" := by
  refine ⟨?_, ?_⟩
  · exact (video_sequence_merge_contract "out" ["a"] (fun _ => .success)
      (fun _ => 5) none 0 (.ok ())).1 "out/veo3_5.mp4" (by decide)
  · exact ((video_sequence_merge_contract "out" ["a", "b"] (fun _ => .success)
      (fun i => i) none 0 (.error "ffmpeg")).2.1 (by decide)).2.2.2
      "ffmpeg" rfl

theorem ledger_duration_counterexample :
    (updateExecution { status := "running", started_at := some ⟨100, some 0⟩ }
        { status := some "failed" } 40).duration_seconds = some (-60) ∧
    ((-60 : Int) < 0) ∧
    (updateExecution
        (updateExecution
          { status := "running", started_at := some ⟨100, some 0⟩ }
          { status := some "failed" } 40)
        { status := some "failed" } 200).duration_seconds = some 100 := by
  refine ⟨by decide, by decide, by decide⟩

/-- **C3 (amended).** On every `update` call whose status argument is
terminal (`"completed"`/`"failed"`), `completed_at` and `duration_seconds`
are both (re)stamped together in that same call: `completed_at` becomes the
call's UTC now, `duration_seconds` becomes the whole-second difference from
the normalized start, which is non-negative whenever the normalized start
is not after the call's clock reading; a timezone-naive `started_at` is
reinterpreted as UTC before the subtraction.  (They are NOT set exactly
once per entry: a repeated terminal update restamps both, and nothing
prevents the difference from being negative when the start timestamp —
written by the database clock — is ahead of the caller's clock.) -/
theorem ledger_completion_stamp :
    ∀ (e : WorkflowExecution) (a : UpdateArgs) (now : Int) (st : PyDatetime),
      (a.status = some "completed" ∨ a.status = some "failed") →
      e.started_at = some st →
      (updateExecution e a now).completed_at = some ⟨now, some 0⟩ ∧
      (updateExecution e a now).duration_seconds =
          some (now - awareInstant (normalizeToUtc st)) ∧
      (awareInstant (normalizeToUtc st) ≤ now →
          ∃ d, (updateExecution e a now).duration_seconds = some d ∧ 0 ≤ d) ∧
      (st.tz = none →
          (updateExecution e a now).duration_seconds =
            some (now - st.wall)) := by
  intro e a now st hterm hst
  have h1 : (applyFieldArgs e a).started_at = some st := by
    rw [← hst]; rfl
  have hc : (updateExecution e a now).completed_at =
      some ⟨now, some 0⟩ := by
    unfold updateExecution stampCompletion
    rw [if_pos hterm, h1]
  have hd : (updateExecution e a now).duration_seconds =
      some (now - awareInstant (normalizeToUtc st)) := by
    unfold updateExecution stampCompletion
    rw [if_pos hterm, h1]
    simp [awareInstant]
  refine ⟨hc, hd, ?_, ?_⟩
  · intro hle
    exact ⟨now - awareInstant (normalizeToUtc st), hd, by omega⟩
  · intro htz
    rw [hd]
    simp [normalizeToUtc, htz, awareInstant]

theorem ledger_completion_stamp_witness :
    (updateExecution { status := "running", started_at := some ⟨10, none⟩ }
        { status := some "completed" } 25).completed_at = some ⟨25, some 0⟩ ∧
    (updateExecution { status := "running", started_at := some ⟨10, none⟩ }
        { status := some "completed" } 25).duration_seconds = some 15 ∧
    (0 : Int) ≤ 15 := by
  have h := ledger_completion_stamp
    { status := "running", started_at := some ⟨10, none⟩ }
    { status := some "completed" } 25 ⟨10, none⟩ (Or.inl rfl) rfl
  refine ⟨h.1, ?_, by decide⟩
  have h4 := h.2.2.2 rfl
  simpa using h4

theorem ledger_monotonicity_counterexample :
    (updateExecution { status := "completed", story_id := some 5 }
        { status := some "running", story_id := some 7 } 0).status =
      "running" ∧
    (updateExecution { status := "completed", story_id := some 5 }
        { status := some "running", story_id := some 7 } 0).story_id =
      some 7 := by
  exact ⟨by decide, by decide⟩

theorem stampCompletion_preserves (e : WorkflowExecution) (a : UpdateArgs)
    (now : Int) :
    (stampCompletion e a now).status = e.status ∧
    (stampCompletion e a now).story_id = e.story_id ∧
    (stampCompletion e a now).video_generation_id = e.video_generation_id ∧
    (stampCompletion e a now).youtube_upload_id = e.youtube_upload_id := by
  unfold stampCompletion
  split
  · split <;> exact ⟨rfl, rfl, rfl, rfl⟩
  · exact ⟨rfl, rfl, rfl, rfl⟩

theorem update_links_not_cleared (e : WorkflowExecution) (a : UpdateArgs)
    (now : Int) :
    ((updateExecution e a now).story_id = none → e.story_id = none) ∧
    ((updateExecution e a now).video_generation_id = none →
        e.video_generation_id = none) ∧
    ((updateExecution e a now).youtube_upload_id = none →
        e.youtube_upload_id = none) := by
  unfold updateExecution
  have hp := stampCompletion_preserves (applyFieldArgs e a) a now
  rw [hp.2.1, hp.2.2.1, hp.2.2.2]
  unfold applyFieldArgs
  refine ⟨?_, ?_, ?_⟩ <;> dsimp only
  · by_cases h : truthyI a.story_id
    · rw [if_pos h]
      intro h2
      rw [h2] at h
      simp [truthyI] at h
    · rw [if_neg h]
      exact id
  · by_cases h : truthyI a.video_generation_id
    · rw [if_pos h]
      intro h2
      rw [h2] at h
      simp [truthyI] at h
    · rw [if_neg h]
      exact id
  · by_cases h : truthyI a.youtube_upload_id
    · rw [if_pos h]
      intro h2
      rw [h2] at h
      simp [truthyI] at h
    · rw [if_neg h]
      exact id

theorem update_status_step (e : WorkflowExecution) (a : UpdateArgs)
    (now : Int)
    (hgood : truthyS a.status = true → isTerminal (a.status.getD "") = true) :
    isTerminal e.status = true →
    isTerminal (updateExecution e a now).status = true := by
  intro hterm
  unfold updateExecution
  rw [(stampCompletion_preserves (applyFieldArgs e a) a now).1]
  show isTerminal (applyFieldArgs e a).status = true
  unfold applyFieldArgs
  dsimp only
  by_cases h : truthyS a.status
  · rw [if_pos h]
    have hg := hgood h
    cases ha : a.status with
    | none => rw [ha] at h; simp [truthyS] at h
    | some s => rw [ha] at hg; simpa using hg
  · rw [if_neg h]
    exact hterm

/-- **C4 (amended).** Under any sequence of `update` calls, the
story/video/publish record-id links are never cleared: once non-null they
remain non-null (a null argument leaves them untouched) — though an update
carrying a *different* non-null id does overwrite them.  The status
transition is one-way only for update sequences whose (truthy) status
arguments are all terminal — which is exactly what the orchestrator issues
after creation; an update explicitly passing `status="running"` would
reverse a terminal status, because `update` overwrites the status field
whenever the argument is truthy. -/
theorem ledger_update_monotonicity :
    ∀ (e : WorkflowExecution) (ops : List (UpdateArgs × Int)),
      ((applyUpdates e ops).story_id = none → e.story_id = none) ∧
      ((applyUpdates e ops).video_generation_id = none →
          e.video_generation_id = none) ∧
      ((applyUpdates e ops).youtube_upload_id = none →
          e.youtube_upload_id = none) ∧
      ((∀ p ∈ ops, truthyS p.1.status = true →
            isTerminal (p.1.status.getD "") = true) →
        isTerminal e.status = true →
        isTerminal (applyUpdates e ops).status = true) := by
  intro e ops
  induction ops generalizing e with
  | nil => exact ⟨id, id, id, fun _ h => h⟩
  | cons op rest ih =>
    have hstep := update_links_not_cleared e op.1 op.2
    have hrest := ih (updateExecution e op.1 op.2)
    have happ : applyUpdates e (op :: rest) =
        applyUpdates (updateExecution e op.1 op.2) rest := rfl
    refine ⟨?_, ?_, ?_, ?_⟩
    · intro h
      exact hstep.1 (hrest.1 (happ ▸ h))
    · intro h
      exact hstep.2.1 (hrest.2.1 (happ ▸ h))
    · intro h
      exact hstep.2.2 (hrest.2.2.1 (happ ▸ h))
    · intro hgood hterm
      rw [happ]
      exact hrest.2.2.2
        (fun p hp => hgood p (List.mem_cons_of_mem _ hp))
        (update_status_step e op.1 op.2
          (hgood op (List.mem_cons_self _ _)) hterm)

theorem ledger_update_monotonicity_witness :
    isTerminal (applyUpdates { status := "completed", story_id := some 3 }
        [({ status := some "failed" }, 50), ({ error_message := some "x" }, 60)]).status
      = true := by
  exact (ledger_update_monotonicity
      { status := "completed", story_id := some 3 }
      [({ status := some "failed" }, 50),
       ({ error_message := some "x" }, 60)]).2.2.2
    (by intro p hp hs; fin_cases hp <;> simp_all [truthyS, isTerminal])
    (by decide)

theorem video_agent_run_body_ok (hasDb : Bool) (n : Nat) (vgid : Option Int)
    (o : VideoRunOracles) (r : VideoAgentResult) :
    video_agent_run_body hasDb n vgid o = .ok r →
    r.segment_count = n ∧ (r.success = false → r.error.isSome = true) := by
  intro h
  unfold video_agent_run_body at h
  repeat' split at h
  all_goals try exact (Except.noConfusion h)
  all_goals simp only [Except.ok.injEq] at h
  all_goals subst h
  all_goals simp

theorem video_agent_run_body_no_raise (hasDb : Bool) (n : Nat)
    (vgid : Option Int) (o : VideoRunOracles) (b : Bool)
    (hx : o.updExc = .ok b) :
    ∃ r, video_agent_run_body hasDb n vgid o = .ok r := by
  have hok : (if hasDb then o.updExc else .ok false) =
      Except.ok (if hasDb then b else false) := by
    cases hasDb <;> simp [hx]
  unfold video_agent_run_body
  rw [hok]
  repeat' split
  all_goals try exact ⟨_, rfl⟩
  all_goals simp_all

theorem video_run_ok (hasDb : Bool) (prompts : List String)
    (sid : Option Int) (o : VideoRunOracles) (r : VideoAgentResult) :
    video_agent_run hasDb prompts sid o = .ok r →
    r.segment_count = prompts.length ∧
    (r.success = false → r.error.isSome = true) := by
  intro h
  unfold video_agent_run video_agent_run_body at h
  repeat' split at h
  all_goals try exact (Except.noConfusion h)
  all_goals simp only [Except.ok.injEq] at h
  all_goals subst h
  all_goals simp

theorem video_run_no_raise (hasDb : Bool) (prompts : List String)
    (sid : Option Int) (o : VideoRunOracles) (b : Bool)
    (hx : o.updExc = .ok b) :
    ∃ r, video_agent_run hasDb prompts sid o = .ok r := by
  unfold video_agent_run
  by_cases hc : truthyI sid && hasDb
  · rw [if_pos hc]
    rcases hs : o.saveGen with e | vg
    · exact ⟨_, rfl⟩
    · exact video_agent_run_body_no_raise hasDb prompts.length vg o b hx
  · rw [if_neg hc]
    exact video_agent_run_body_no_raise hasDb prompts.length none o b hx

/-- **C10 (amended).** Every agent result that reports failure carries a
non-null error message, and every result the video agent returns reports a
segment count equal to the number of input prompts; the story and YouTube
agents never propagate a collaborator exception (their run embeddings are
total functions), and the video agent never propagates one *provided* the
status-update persistence call made inside its exception handler does not
itself raise.  (As stated, the claim fails: when that handler-side update
raises — e.g. its session rollback fails — `VideoAgent.run` propagates the
exception; see the counterexample.) -/
theorem agent_runs_report_failures :
    (∀ (mc : String) (hasDb : Bool) (ep : Option Int) (stdb : Bool)
        (o : StoryRunOracles),
        (story_agent_run mc hasDb ep stdb o).success = false →
        (story_agent_run mc hasDb ep stdb o).error.isSome = true) ∧
    (∀ (hasDb : Bool) (sid : Option Int) (o : YtRunOracles),
        (youtube_agent_run hasDb sid o).success = false →
        (youtube_agent_run hasDb sid o).error.isSome = true) ∧
    (∀ (hasDb : Bool) (prompts : List String) (sid : Option Int)
        (o : VideoRunOracles) (r : VideoAgentResult),
        video_agent_run hasDb prompts sid o = .ok r →
        r.segment_count = prompts.length ∧
        (r.success = false → r.error.isSome = true)) ∧
    (∀ (hasDb : Bool) (prompts : List String) (sid : Option Int)
        (o : VideoRunOracles) (b : Bool),
        o.updExc = .ok b →
        ∃ r, video_agent_run hasDb prompts sid o = .ok r) := by
  refine ⟨?_, ?_, ?_, ?_⟩
  · intro mc hasDb ep stdb o
    unfold story_agent_run
    dsimp only
    rcases hg : story_agent_generate mc
        (ep.getD ((o.getHistory.length : Int) + 1)) o.getHistory o.genText
        o.extract o.nowIso with _ | st
    · simp
    · rcases hs : (if stdb && hasDb then o.saveStory else .ok none)
          with e | sid
      · simp [hs]
      · simp [hs]
  · intro hasDb sid o
    unfold youtube_agent_run
    rcases hu : o.uploadRes with _ | ur
    · simp
    · rcases hs : (if truthyI sid && hasDb then o.saveUpload else .ok none)
          with e | rid
      · simp [hs]
      · simp [hs]
  · intro hasDb prompts sid o r
    exact video_run_ok hasDb prompts sid o r
  · intro hasDb prompts sid o b hx
    exact video_run_no_raise hasDb prompts sid o b hx

theorem video_run_propagation_counterexample :
    video_agent_run true ["a"] (some 1)
      { saveGen := .ok (some 7), seqPath := none,
        updTry := .error "db down", updExc := .error "db gone" } =
      .error "db gone" := by
  decide

theorem agent_runs_report_failures_witness :
    (story_agent_run "A" false none false
        { getHistory := [], genText := .error "boom", extract := none,
          nowIso := "t", saveStory := .ok none }).error.isSome = true ∧
    (youtube_agent_run false none
        { uploadRes := none, saveUpload := .ok none }).error.isSome = true ∧
    ({ video_path := some "p", video_generation_id := none,
        segment_count := 2, success := true } :
        VideoAgentResult).segment_count = 2 ∧
    (∃ r, video_agent_run false ["a", "b"] none
        { saveGen := .ok none, seqPath := some "p", updTry := .ok false,
          updExc := .ok false } = .ok r) := by
  refine ⟨?_, ?_, ?_, ?_⟩
  · exact agent_runs_report_failures.1 "A" false none false
      { getHistory := [], genText := .error "boom", extract := none,
        nowIso := "t", saveStory := .ok none } (by decide)
  · exact agent_runs_report_failures.2.1 false none
      { uploadRes := none, saveUpload := .ok none } (by decide)
  · exact (agent_runs_report_failures.2.2.1 false ["a", "b"] none
      { saveGen := .ok none, seqPath := some "p", updTry := .ok false,
        updExc := .ok false }
      { video_path := some "p", video_generation_id := none,
        segment_count := 2, success := true } (by decide)).1
  · exact agent_runs_report_failures.2.2.2 false ["a", "b"] none
      { saveGen := .ok none, seqPath := some "p", updTry := .ok false,
        updExc := .ok false } false rfl

theorem should_continue_edges (s : WorkflowState) :
    should_continue_after_story s =
      (if truthyS s.error = false ∧ s.story ≠ none then "continue"
       else "error") ∧
    should_continue_after_videos s =
      (if truthyS s.error = false ∧ truthyS s.final_video_path = true then
        "continue" else "error") ∧
    should_continue_after_upload s =
      (if truthyS s.error = false ∧ s.upload_result ≠ none then "continue"
       else "error") := by
  refine ⟨?_, ?_, ?_⟩
  · unfold should_continue_after_story
    by_cases h1 : truthyS s.error <;> by_cases h2 : s.story = none <;>
      simp [h1, h2]
  · unfold should_continue_after_videos
    by_cases h1 : truthyS s.error <;>
      by_cases h2 : truthyS s.final_video_path <;> simp [h1, h2]
  · unfold should_continue_after_upload
    by_cases h1 : truthyS s.error <;> by_cases h2 : s.upload_result = none <;>
      simp [h1, h2]

theorem generate_story_node_fail (res : StoryAgentResult) (s : WorkflowState)
    (h : (!res.success || res.story = none : Bool) = true) :
    generate_story_node res s =
      { s with error := some (strOr res.error "스토리 생성 실패"),
               current_step := "error" } := by
  unfold generate_story_node
  rw [if_pos h]

theorem generate_story_node_ok (res : StoryAgentResult) (s : WorkflowState)
    (h : (!res.success || res.story = none : Bool) = false) :
    generate_story_node res s =
      { s with story := res.story, story_id := res.story_id,
               current_step := "generate_story" } := by
  unfold generate_story_node
  rw [if_neg (by simp [h])]

theorem generate_videos_node_skip (cfg : AppSettings) (res : VideoAgentResult)
    (s : WorkflowState) (st : Story) (hst : s.story = some st)
    (hskip : cfg.skip_video_generation = true)
    (hpath : ¬ cfg.test_video_path = "") :
    generate_videos_node cfg res s =
      ({ s with final_video_path := some cfg.test_video_path,
                video_generation_id := none,
                current_step := "generate_videos" }, false) := by
  unfold generate_videos_node
  rw [hst]
  simp [hskip, hpath]

theorem generate_videos_node_skip_nopath (cfg : AppSettings)
    (res : VideoAgentResult) (s : WorkflowState) (st : Story)
    (hst : s.story = some st) (hskip : cfg.skip_video_generation = true)
    (hpath : cfg.test_video_path = "") :
    generate_videos_node cfg res s =
      ({ s with
          error := some "skip_video_generation=True이지만 test_video_path가 설정되지 않았습니다.",
          current_step := "error" }, false) := by
  unfold generate_videos_node
  rw [hst]
  simp [hskip, hpath]

theorem generate_videos_node_fail (cfg : AppSettings)
    (res : VideoAgentResult) (s : WorkflowState) (st : Story)
    (hst : s.story = some st) (hskip : cfg.skip_video_generation = false)
    (h : (!res.success || !truthyS res.video_path) = true) :
    generate_videos_node cfg res s =
      ({ s with error := some (strOr res.error "영상 생성 실패"),
                current_step := "error" }, true) := by
  unfold generate_videos_node
  rw [hst]
  simp [hskip, h]

theorem generate_videos_node_ok (cfg : AppSettings)
    (res : VideoAgentResult) (s : WorkflowState) (st : Story)
    (hst : s.story = some st) (hskip : cfg.skip_video_generation = false)
    (h : (!res.success || !truthyS res.video_path) = false) :
    generate_videos_node cfg res s =
      ({ s with final_video_path := res.video_path,
                video_generation_id := res.video_generation_id,
                current_step := "generate_videos" }, true) := by
  unfold generate_videos_node
  rw [hst]
  simp [hskip, h]

theorem upload_node_fail (res : YouTubeAgentResult) (s : WorkflowState)
    (st : Story) (hst : s.story = some st)
    (hfv : truthyS s.final_video_path = true) (h : res.success = false) :
    upload_to_youtube_node res s =
      ({ s with error := some (strOr res.error "YouTube 업로드 실패"),
                current_step := "error" }, true) := by
  unfold upload_to_youtube_node
  rw [hst]
  simp [hfv, h]

theorem upload_node_ok (res : YouTubeAgentResult) (s : WorkflowState)
    (st : Story) (hst : s.story = some st)
    (hfv : truthyS s.final_video_path = true) (h : res.success = true) :
    upload_to_youtube_node res s =
      ({ s with
          upload_result := some
            { video_id := res.video_id.getD "", url := res.video_url.getD "",
              title := st.title },
          youtube_upload_id := res.upload_record_id,
          current_step := "upload_to_youtube" }, true) := by
  unfold upload_to_youtube_node
  rw [hst]
  simp [hfv, h]

theorem runGraph_story_fail (cfg : AppSettings) (o : GraphOracles)
    (ep : Option Int) (pv : Bool) (ts : String) (eid : Option Int)
    (hsf : storyStageFails o = true) :
    runGraph cfg o (initial_state ep pv ts eid) =
      { final := { initial_state ep pv ts eid with
                    story_history := o.loadedHistory,
                    error := some (strOr o.storyRes.error "스토리 생성 실패"),
                    current_step := "error" },
        executed := ["load_history", "generate_story", "handle_error"],
        videoAgentCalled := false, uploadAgentCalled := false } := by
  have h2 := generate_story_node_fail o.storyRes
    (load_history_node o.loadedHistory (initial_state ep pv ts eid))
    (by simpa [storyStageFails] using hsf)
  have hcond : should_continue_after_story
      { load_history_node o.loadedHistory (initial_state ep pv ts eid) with
        error := some (strOr o.storyRes.error "스토리 생성 실패"),
        current_step := "error" } = "error" := by
    simp [should_continue_after_story,
      truthyS_strOr o.storyRes.error "스토리 생성 실패" (by decide)]
  simp only [runGraph]
  rw [h2, hcond]
  rw [if_neg (by decide)]
  rfl

theorem runGraph_video_fail (cfg : AppSettings) (o : GraphOracles)
    (ep : Option Int) (pv : Bool) (ts : String) (eid : Option Int)
    (hso : storyStageFails o = false) (hvf : videoStageFails cfg o = true) :
    (runGraph cfg o (initial_state ep pv ts eid)).final.current_step =
        "error" ∧
    finalLedgerStatus (runGraph cfg o (initial_state ep pv ts eid)).final =
        "failed" ∧
    (runGraph cfg o (initial_state ep pv ts eid)).uploadAgentCalled = false ∧
    (runGraph cfg o (initial_state ep pv ts eid)).executed =
        ["load_history", "generate_story", "generate_videos",
         "handle_error"] := by
  obtain ⟨st, hst⟩ : ∃ st, o.storyRes.story = some st := by
    rcases h : o.storyRes.story with _ | st
    · exfalso
      simp [storyStageFails, h] at hso
    · exact ⟨st, rfl⟩
  have h2 := generate_story_node_ok o.storyRes
    (load_history_node o.loadedHistory (initial_state ep pv ts eid))
    (by simpa [storyStageFails] using hso)
  have hcond1 : should_continue_after_story
      { load_history_node o.loadedHistory (initial_state ep pv ts eid) with
        story := o.storyRes.story, story_id := o.storyRes.story_id,
        current_step := "generate_story" } = "continue" := by
    simp [should_continue_after_story, truthyS, load_history_node,
      initial_state, hst]
  cases hskip : cfg.skip_video_generation with
  | true =>
      have hpath : cfg.test_video_path = "" := by
        simpa [videoStageFails, hskip] using hvf
      have h3 := generate_videos_node_skip_nopath cfg o.videoRes
        { load_history_node o.loadedHistory (initial_state ep pv ts eid) with
          story := o.storyRes.story, story_id := o.storyRes.story_id,
          current_step := "generate_story" } st (by simpa using hst)
        hskip hpath
      have hcond2 : should_continue_after_videos
          { load_history_node o.loadedHistory (initial_state ep pv ts eid) with
            story := o.storyRes.story, story_id := o.storyRes.story_id,
            current_step := "error",
            error := some "skip_video_generation=True이지만 test_video_path가 설정되지 않았습니다." }
            = "error" := by
        simp [should_continue_after_videos, truthyS]
      simp only [runGraph]
      rw [h2, hcond1, if_pos rfl, h3]
      simp only []
      rw [hcond2, if_neg (by decide)]
      refine ⟨rfl, ?_, rfl, rfl⟩
      simp [finalLedgerStatus, handle_error_node, truthyS]
  | false =>
      have hfail : (!o.videoRes.success || !truthyS o.videoRes.video_path)
          = true := by
        simpa [videoStageFails, hskip] using hvf
      have h3 := generate_videos_node_fail cfg o.videoRes
        { load_history_node o.loadedHistory (initial_state ep pv ts eid) with
          story := o.storyRes.story, story_id := o.storyRes.story_id,
          current_step := "generate_story" } st (by simpa using hst)
        hskip hfail
      have hcond2 : should_continue_after_videos
          { load_history_node o.loadedHistory (initial_state ep pv ts eid) with
            story := o.storyRes.story, story_id := o.storyRes.story_id,
            current_step := "error",
            error := some (strOr o.videoRes.error "영상 생성 실패") }
            = "error" := by
        simp [should_continue_after_videos,
          truthyS_strOr o.videoRes.error "영상 생성 실패" (by decide)]
      simp only [runGraph]
      rw [h2, hcond1, if_pos rfl, h3]
      simp only []
      rw [hcond2, if_neg (by decide)]
      refine ⟨rfl, ?_, rfl, rfl⟩
      simp [finalLedgerStatus, handle_error_node,
        truthyS_strOr o.videoRes.error "영상 생성 실패" (by decide)]

theorem runGraph_upload_fail (cfg : AppSettings) (o : GraphOracles)
    (ep : Option Int) (pv : Bool) (ts : String) (eid : Option Int)
    (hso : storyStageFails o = false) (hvf : videoStageFails cfg o = false)
    (huf : uploadStageFails o = true) :
    (runGraph cfg o (initial_state ep pv ts eid)).final.current_step =
        "error" ∧
    finalLedgerStatus (runGraph cfg o (initial_state ep pv ts eid)).final =
        "failed" ∧
    (runGraph cfg o (initial_state ep pv ts eid)).executed =
        ["load_history", "generate_story", "generate_videos",
         "upload_to_youtube", "handle_error"] := by
  obtain ⟨st, hst⟩ : ∃ st, o.storyRes.story = some st := by
    rcases h : o.storyRes.story with _ | st
    · exfalso
      simp [storyStageFails, h] at hso
    · exact ⟨st, rfl⟩
  have h2 := generate_story_node_ok o.storyRes
    (load_history_node o.loadedHistory (initial_state ep pv ts eid))
    (by simpa [storyStageFails] using hso)
  have hcond1 : should_continue_after_story
      { load_history_node o.loadedHistory (initial_state ep pv ts eid) with
        story := o.storyRes.story, story_id := o.storyRes.story_id,
        current_step := "generate_story" } = "continue" := by
    simp [should_continue_after_story, truthyS, load_history_node,
      initial_state, hst]
  have hups : o.ytRes.success = false := by
    simpa [uploadStageFails] using huf
  cases hskip : cfg.skip_video_generation with
  | true =>
      have hpath : ¬ cfg.test_video_path = "" := by
        simpa [videoStageFails, hskip] using hvf
      have h3 := generate_videos_node_skip cfg o.videoRes
        { load_history_node o.loadedHistory (initial_state ep pv ts eid) with
          story := o.storyRes.story, story_id := o.storyRes.story_id,
          current_step := "generate_story" } st (by simpa using hst)
        hskip hpath
      have hcond2 : should_continue_after_videos
          { load_history_node o.loadedHistory (initial_state ep pv ts eid) with
            story := o.storyRes.story, story_id := o.storyRes.story_id,
            current_step := "generate_videos",
            final_video_path := some cfg.test_video_path,
            video_generation_id := none } = "continue" := by
        simp [should_continue_after_videos, truthyS, load_history_node,
          initial_state, hpath]
      have h4 := upload_node_fail o.ytRes
        { load_history_node o.loadedHistory (initial_state ep pv ts eid) with
          story := o.storyRes.story, story_id := o.storyRes.story_id,
          current_step := "generate_videos",
          final_video_path := some cfg.test_video_path,
          video_generation_id := none } st (by simpa using hst)
        (by simp [truthyS, hpath]) hups
      have hcond3 : should_continue_after_upload
          { load_history_node o.loadedHistory (initial_state ep pv ts eid) with
            story := o.storyRes.story, story_id := o.storyRes.story_id,
            current_step := "error",
            final_video_path := some cfg.test_video_path,
            video_generation_id := none,
            error := some (strOr o.ytRes.error "YouTube 업로드 실패") }
            = "error" := by
        simp [should_continue_after_upload,
          truthyS_strOr o.ytRes.error "YouTube 업로드 실패" (by decide)]
      simp only [runGraph]
      rw [h2, hcond1, if_pos rfl, h3]
      simp only []
      rw [hcond2, if_pos rfl, h4]
      simp only []
      rw [hcond3, if_neg (by decide)]
      refine ⟨rfl, ?_, rfl⟩
      simp [finalLedgerStatus, handle_error_node,
        truthyS_strOr o.ytRes.error "YouTube 업로드 실패" (by decide)]
  | false =>
      obtain ⟨hsucc, htr⟩ : o.videoRes.success = true ∧
          truthyS o.videoRes.video_path = true := by
        simpa [videoStageFails, hskip] using hvf
      have h3 := generate_videos_node_ok cfg o.videoRes
        { load_history_node o.loadedHistory (initial_state ep pv ts eid) with
          story := o.storyRes.story, story_id := o.storyRes.story_id,
          current_step := "generate_story" } st (by simpa using hst)
        hskip (by simp [hsucc, htr])
      have hcond2 : should_continue_after_videos
          { load_history_node o.loadedHistory (initial_state ep pv ts eid) with
            story := o.storyRes.story, story_id := o.storyRes.story_id,
            current_step := "generate_videos",
            final_video_path := o.videoRes.video_path,
            video_generation_id := o.videoRes.video_generation_id }
            = "continue" := by
        simp [should_continue_after_videos, truthyS_none, load_history_node,
          initial_state, htr]
      have h4 := upload_node_fail o.ytRes
        { load_history_node o.loadedHistory (initial_state ep pv ts eid) with
          story := o.storyRes.story, story_id := o.storyRes.story_id,
          current_step := "generate_videos",
          final_video_path := o.videoRes.video_path,
          video_generation_id := o.videoRes.video_generation_id } st
        (by simpa using hst) (by exact htr) hups
      have hcond3 : should_continue_after_upload
          { load_history_node o.loadedHistory (initial_state ep pv ts eid) with
            story := o.storyRes.story, story_id := o.storyRes.story_id,
            current_step := "error",
            final_video_path := o.videoRes.video_path,
            video_generation_id := o.videoRes.video_generation_id,
            error := some (strOr o.ytRes.error "YouTube 업로드 실패") }
            = "error" := by
        simp [should_continue_after_upload,
          truthyS_strOr o.ytRes.error "YouTube 업로드 실패" (by decide)]
      simp only [runGraph]
      rw [h2, hcond1, if_pos rfl, h3]
      simp only []
      rw [hcond2, if_pos rfl, h4]
      simp only []
      rw [hcond3, if_neg (by decide)]
      refine ⟨rfl, ?_, rfl⟩
      simp [finalLedgerStatus, handle_error_node,
        truthyS_strOr o.ytRes.error "YouTube 업로드 실패" (by decide)]

theorem exit_update_failed (s : WorkflowState)
    (h : finalLedgerStatus s = "failed") (ex : WorkflowExecution)
    (now : Int) :
    (updateExecution ex (exitUpdateArgs s) now).status = "failed" := by
  unfold updateExecution
  rw [(stampCompletion_preserves (applyFieldArgs ex (exitUpdateArgs s))
    (exitUpdateArgs s) now).1]
  show (applyFieldArgs ex (exitUpdateArgs s)).status = "failed"
  unfold applyFieldArgs exitUpdateArgs
  dsimp only
  rw [h]
  simp [truthyS]

/-- **C1.** Each conditional edge routes to `"continue"` iff the state has
no (truthy) error and the stage's artifact is present (story document /
truthy final video path / upload result), else to the error route; and
whenever a stage (story, video, upload) records an error or misses its
artifact, the terminal `WorkflowState` has `current_step = "error"`, the
exit logic marks the run's Ledger entry `"failed"` (the `update` call sets
the row's status to `"failed"`), and no stage after the failing one
executes — in particular a Story Stage failure means neither the video nor
the upload collaborator is ever invoked.  (Within the graph, every error
value written into the state is a non-empty string, so truthiness of
`error` coincides with its presence.) -/
theorem workflow_failure_short_circuits :
    (∀ s : WorkflowState,
        should_continue_after_story s =
          (if truthyS s.error = false ∧ s.story ≠ none then "continue"
           else "error") ∧
        should_continue_after_videos s =
          (if truthyS s.error = false ∧ truthyS s.final_video_path = true
           then "continue" else "error") ∧
        should_continue_after_upload s =
          (if truthyS s.error = false ∧ s.upload_result ≠ none then
            "continue" else "error")) ∧
    (∀ (cfg : AppSettings) (o : GraphOracles) (ep : Option Int) (pv : Bool)
        (ts : String) (eid : Option Int),
        (storyStageFails o = true →
          (runGraph cfg o (initial_state ep pv ts eid)).final.current_step
              = "error" ∧
          finalLedgerStatus
              (runGraph cfg o (initial_state ep pv ts eid)).final
              = "failed" ∧
          (∀ (ex : WorkflowExecution) (now : Int),
            (updateExecution ex
              (exitUpdateArgs
                (runGraph cfg o (initial_state ep pv ts eid)).final)
              now).status = "failed") ∧
          (runGraph cfg o (initial_state ep pv ts eid)).videoAgentCalled
              = false ∧
          (runGraph cfg o (initial_state ep pv ts eid)).uploadAgentCalled
              = false ∧
          (runGraph cfg o (initial_state ep pv ts eid)).executed =
              ["load_history", "generate_story", "handle_error"]) ∧
        (storyStageFails o = false → videoStageFails cfg o = true →
          (runGraph cfg o (initial_state ep pv ts eid)).final.current_step
              = "error" ∧
          finalLedgerStatus
              (runGraph cfg o (initial_state ep pv ts eid)).final
              = "failed" ∧
          (∀ (ex : WorkflowExecution) (now : Int),
            (updateExecution ex
              (exitUpdateArgs
                (runGraph cfg o (initial_state ep pv ts eid)).final)
              now).status = "failed") ∧
          (runGraph cfg o (initial_state ep pv ts eid)).uploadAgentCalled
              = false ∧
          (runGraph cfg o (initial_state ep pv ts eid)).executed =
              ["load_history", "generate_story", "generate_videos",
               "handle_error"]) ∧
        (storyStageFails o = false → videoStageFails cfg o = false →
            uploadStageFails o = true →
          (runGraph cfg o (initial_state ep pv ts eid)).final.current_step
              = "error" ∧
          finalLedgerStatus
              (runGraph cfg o (initial_state ep pv ts eid)).final
              = "failed" ∧
          (∀ (ex : WorkflowExecution) (now : Int),
            (updateExecution ex
              (exitUpdateArgs
                (runGraph cfg o (initial_state ep pv ts eid)).final)
              now).status = "failed") ∧
          (runGraph cfg o (initial_state ep pv ts eid)).executed =
              ["load_history", "generate_story", "generate_videos",
               "upload_to_youtube", "handle_error"] ∧
          "save_history" ∉
              (runGraph cfg o (initial_state ep pv ts eid)).executed)) := by
  refine ⟨fun s => should_continue_edges s, ?_⟩
  intro cfg o ep pv ts eid
  refine ⟨?_, ?_, ?_⟩
  · intro hsf
    rw [runGraph_story_fail cfg o ep pv ts eid hsf]
    have hfl : finalLedgerStatus
        { initial_state ep pv ts eid with
          story_history := o.loadedHistory,
          error := some (strOr o.storyRes.error "스토리 생성 실패"),
          current_step := "error" } = "failed" := by
      simp [finalLedgerStatus,
        truthyS_strOr o.storyRes.error "스토리 생성 실패" (by decide)]
    exact ⟨rfl, hfl, fun ex now => exit_update_failed _ hfl ex now, rfl, rfl,
      rfl⟩
  · intro hso hvf
    obtain ⟨h1, h2, h3, h4⟩ := runGraph_video_fail cfg o ep pv ts eid hso hvf
    exact ⟨h1, h2, fun ex now => exit_update_failed _ h2 ex now, h3, h4⟩
  · intro hso hvf huf
    obtain ⟨h1, h2, h3⟩ := runGraph_upload_fail cfg o ep pv ts eid hso hvf huf
    refine ⟨h1, h2, fun ex now => exit_update_failed _ h2 ex now, h3, ?_⟩
    rw [h3]
    decide

/-- A concrete oracle assignment whose Story Stage fails. -/
def storyFailOracles : GraphOracles :=
  { loadedHistory := [],
    storyRes := { episode := 1, success := false, story := none },
    videoRes := { segment_count := 0 },
    ytRes := { success := false },
    saveHistory := .ok [] }

theorem workflow_failure_short_circuits_witness :
    (runGraph { skip_video_generation := false } storyFailOracles
      (initial_state none false "t" none)).final.current_step = "error" ∧
    finalLedgerStatus
      (runGraph { skip_video_generation := false } storyFailOracles
        (initial_state none false "t" none)).final = "failed" ∧
    (runGraph { skip_video_generation := false } storyFailOracles
      (initial_state none false "t" none)).uploadAgentCalled = false := by
  have h := (workflow_failure_short_circuits.2
    { skip_video_generation := false } storyFailOracles
    none false "t" none).1 (by decide)
  exact ⟨h.1, h.2.1, h.2.2.2.2.1⟩

theorem runGraph_skip_path (cfg : AppSettings) (o : GraphOracles)
    (ep : Option Int) (pv : Bool) (ts : String) (eid : Option Int)
    (hso : storyStageFails o = false)
    (hskip : cfg.skip_video_generation = true)
    (hpath : ¬ cfg.test_video_path = "") :
    (runGraph cfg o (initial_state ep pv ts eid)).videoAgentCalled = false ∧
    (runGraph cfg o (initial_state ep pv ts eid)).final.final_video_path =
        some cfg.test_video_path ∧
    (runGraph cfg o (initial_state ep pv ts eid)).final.video_generation_id
        = none ∧
    "upload_to_youtube" ∈
        (runGraph cfg o (initial_state ep pv ts eid)).executed := by
  obtain ⟨st, hst⟩ : ∃ st, o.storyRes.story = some st := by
    rcases h : o.storyRes.story with _ | st
    · exfalso
      simp [storyStageFails, h] at hso
    · exact ⟨st, rfl⟩
  have h2 := generate_story_node_ok o.storyRes
    (load_history_node o.loadedHistory (initial_state ep pv ts eid))
    (by simpa [storyStageFails] using hso)
  have hcond1 : should_continue_after_story
      { load_history_node o.loadedHistory (initial_state ep pv ts eid) with
        story := o.storyRes.story, story_id := o.storyRes.story_id,
        current_step := "generate_story" } = "continue" := by
    simp [should_continue_after_story, truthyS, load_history_node,
      initial_state, hst]
  have h3 := generate_videos_node_skip cfg o.videoRes
    { load_history_node o.loadedHistory (initial_state ep pv ts eid) with
      story := o.storyRes.story, story_id := o.storyRes.story_id,
      current_step := "generate_story" } st (by simpa using hst)
    hskip hpath
  have hcond2 : should_continue_after_videos
      { load_history_node o.loadedHistory (initial_state ep pv ts eid) with
        story := o.storyRes.story, story_id := o.storyRes.story_id,
        current_step := "generate_videos",
        final_video_path := some cfg.test_video_path,
        video_generation_id := none } = "continue" := by
    simp [should_continue_after_videos, truthyS, load_history_node,
      initial_state, hpath]
  cases hyt : o.ytRes.success with
  | false =>
      have h4 := upload_node_fail o.ytRes
        { load_history_node o.loadedHistory (initial_state ep pv ts eid) with
          story := o.storyRes.story, story_id := o.storyRes.story_id,
          current_step := "generate_videos",
          final_video_path := some cfg.test_video_path,
          video_generation_id := none } st (by simpa using hst)
        (by simp [truthyS, hpath]) hyt
      have hcond3 : should_continue_after_upload
          { load_history_node o.loadedHistory (initial_state ep pv ts eid) with
            story := o.storyRes.story, story_id := o.storyRes.story_id,
            current_step := "error",
            final_video_path := some cfg.test_video_path,
            video_generation_id := none,
            error := some (strOr o.ytRes.error "YouTube 업로드 실패") }
            = "error" := by
        simp [should_continue_after_upload,
          truthyS_strOr o.ytRes.error "YouTube 업로드 실패" (by decide)]
      simp only [runGraph]
      rw [h2, hcond1, if_pos rfl, h3]
      simp only []
      rw [hcond2, if_pos rfl, h4]
      simp only []
      rw [hcond3, if_neg (by decide)]
      exact ⟨rfl, rfl, rfl, by simp⟩
  | true =>
      have h4 := upload_node_ok o.ytRes
        { load_history_node o.loadedHistory (initial_state ep pv ts eid) with
          story := o.storyRes.story, story_id := o.storyRes.story_id,
          current_step := "generate_videos",
          final_video_path := some cfg.test_video_path,
          video_generation_id := none } st (by simpa using hst)
        (by simp [truthyS, hpath]) hyt
      have hcond3 : should_continue_after_upload
          { load_history_node o.loadedHistory (initial_state ep pv ts eid) with
            story := o.storyRes.story, story_id := o.storyRes.story_id,
            current_step := "upload_to_youtube",
            final_video_path := some cfg.test_video_path,
            video_generation_id := none,
            upload_result := some
              { video_id := o.ytRes.video_id.getD "",
                url := o.ytRes.video_url.getD "", title := st.title },
            youtube_upload_id := o.ytRes.upload_record_id } = "continue" := by
        simp [should_continue_after_upload, truthyS, load_history_node,
          initial_state]
      simp only [runGraph]
      rw [h2, hcond1, if_pos rfl, h3]
      simp only []
      rw [hcond2, if_pos rfl, h4]
      simp only []
      rw [hcond3, if_pos rfl]
      unfold save_history_node
      rcases hsv : o.saveHistory with e | l
      · exact ⟨rfl, rfl, rfl, by simp⟩
      · exact ⟨rfl, rfl, rfl, by simp⟩

/-- **C8.** With the skip switch enabled and a test video path configured,
the `generate_videos` node sets `final_video_path` directly to the
configured path, leaves `video_generation_id` null, does not invoke the
video agent, and the conditional edge routes straight on to the upload
stage; at the graph level the run reaches `upload_to_youtube` with that
fixed path and a null generation id, the video agent never having been
called.  The switch is checked inside the node — the graph's node set is
fixed (`runGraph` has no extra state for it). -/
theorem skip_video_mode :
    (∀ (cfg : AppSettings) (res : VideoAgentResult) (s : WorkflowState)
        (st : Story),
        cfg.skip_video_generation = true → cfg.test_video_path ≠ "" →
        s.story = some st →
        generate_videos_node cfg res s =
          ({ s with final_video_path := some cfg.test_video_path,
                    video_generation_id := none,
                    current_step := "generate_videos" }, false) ∧
        (truthyS s.error = false →
          should_continue_after_videos (generate_videos_node cfg res s).1 =
            "continue")) ∧
    (∀ (cfg : AppSettings) (o : GraphOracles) (ep : Option Int) (pv : Bool)
        (ts : String) (eid : Option Int),
        cfg.skip_video_generation = true → cfg.test_video_path ≠ "" →
        storyStageFails o = false →
        (runGraph cfg o (initial_state ep pv ts eid)).videoAgentCalled =
            false ∧
        (runGraph cfg o (initial_state ep pv ts eid)).final.final_video_path
            = some cfg.test_video_path ∧
        (runGraph cfg o
            (initial_state ep pv ts eid)).final.video_generation_id = none ∧
        "upload_to_youtube" ∈
            (runGraph cfg o (initial_state ep pv ts eid)).executed) := by
  refine ⟨?_, ?_⟩
  · intro cfg res s st hskip hpath hst
    have h := generate_videos_node_skip cfg res s st hst hskip hpath
    refine ⟨h, ?_⟩
    intro herr
    rw [h]
    simp [should_continue_after_videos, herr,
      truthyS_some_of_ne cfg.test_video_path hpath]
  · intro cfg o ep pv ts eid hskip hpath hso
    exact runGraph_skip_path cfg o ep pv ts eid hso hskip hpath

/-- A minimal concrete story document. -/
def sampleStory : Story :=
  { title := "t", dish := "d", summary := "s", story := "st",
    cooking_steps := [], video_prompts := [], tags := [],
    description := "de" }

def skipSettings : AppSettings :=
  { skip_video_generation := true, test_video_path := "test.mp4" }

def skipState : WorkflowState := { story := some sampleStory }

def skipVideoRes : VideoAgentResult := { segment_count := 0 }

def skipOracles : GraphOracles :=
  { loadedHistory := [],
    storyRes := { story := some sampleStory, episode := 1, success := true },
    videoRes := { segment_count := 0 },
    ytRes := { success := true },
    saveHistory := .ok [] }

theorem skip_video_mode_witness :
    generate_videos_node skipSettings skipVideoRes skipState =
      ({ skipState with final_video_path := some "test.mp4",
                        video_generation_id := none,
                        current_step := "generate_videos" }, false) ∧
    (runGraph skipSettings skipOracles
        (initial_state none false "t" none)).videoAgentCalled = false ∧
    (runGraph skipSettings skipOracles
        (initial_state none false "t" none)).final.final_video_path =
      some "test.mp4" := by
  refine ⟨?_, ?_, ?_⟩
  · exact (skip_video_mode.1 skipSettings skipVideoRes skipState sampleStory
      rfl (by decide) rfl).1
  · exact (skip_video_mode.2 skipSettings skipOracles none false "t" none
      rfl (by decide) (by decide)).1
  · exact (skip_video_mode.2 skipSettings skipOracles none false "t" none
      rfl (by decide) (by decide)).2.1
